import Mathlib

/-!
Verification of the plot-item attachment/lifecycle model of the
qwt `QwtPlotItem` layer (header `src/qwt/src/qwt_plot_item.h`).

The repository excerpt contains only the class declaration; the member
function bodies (`qwt_plot_item.cpp`) are not part of the excerpt, so the
registry operations below are modelled from the specification's
PlotItemRegistry contract.  Enumeration values (`RttiValues`,
`ItemAttribute`, `RenderHint`) and the example `main` program are embedded
from the source text itself.
-/

namespace QwtSpec

/-- Identifier of a plot item (an item object's identity). -/
abbrev ItemId := Nat

/-- Identifier of a plot container (a `QwtPlot` object's identity). -/
abbrev PlotId := Nat

/-- Plot item attributes, from the `ItemAttribute` enum of
`qwt_plot_item.h` (`Legend = 0x01`, `AutoScale = 0x02`). -/
inductive ItemAttribute where
  | Legend
  | AutoScale
deriving DecidableEq, Repr

/-- Bit value of an `ItemAttribute`, as declared in the header. -/
def ItemAttribute.value : ItemAttribute → Nat
  | .Legend => 0x01
  | .AutoScale => 0x02

/-- Render hints, from the `RenderHint` enum of `qwt_plot_item.h`
(`RenderAntialiased = 0x1`, `RenderFloats = 0x2`). -/
inductive RenderHint where
  | RenderAntialiased
  | RenderFloats
deriving DecidableEq, Repr

/-- Bit value of a `RenderHint`, as declared in the header. -/
def RenderHint.value : RenderHint → Nat
  | .RenderAntialiased => 0x1
  | .RenderFloats => 0x2

/-- Modelled from the spec: the per-item state of a `QwtPlotItem`
(`PrivateData` of `qwt_plot_item.cpp` is not part of the excerpt).  The
spec's data model lists: title, z-order (default 0), visibility flag,
the two boolean attributes Legend and AutoScale, the two render hints,
x-axis id, y-axis id, and a weak owning-plot back-reference.  The z
value is a finite floating-point ordering key in the source; it is only
stored and compared, never computed with, so it is embedded as a
rational number. -/
structure PlotItem where
  title : String
  z : ℚ
  visible : Bool
  legendAttr : Bool
  autoScaleAttr : Bool
  antialiased : Bool
  renderFloats : Bool
  xAxis : Int
  yAxis : Int
  plot : Option PlotId
deriving DecidableEq, Repr

/-- Modelled from the spec: the constructor `QwtPlotItem(title)`.  The
spec's lifecycle says items are "created detached" and the z-order
default is 0. -/
def mkPlotItem (title : String) : PlotItem :=
  { title := title
    z := 0
    visible := true
    legendAttr := false
    autoScaleAttr := false
    antialiased := false
    renderFloats := false
    xAxis := 0
    yAxis := 0
    plot := none }

/-- Modelled from the spec: the PlotItemRegistry state.  `items` gives
each item's state, `collections` gives each container's ordered
collection of attached items, and `log` records the container
notifications (legend-invalidation + redraw signals) in order. -/
structure RegistryState where
  items : ItemId → PlotItem
  collections : PlotId → List ItemId
  log : List PlotId

/-- Modelled from the spec: `attach(item, container)` where `container`
may be `none` (meaning "detach").  The item is first removed from its
previous container's collection (notifying that container), the item's
back-reference is set, and—when the new container is non-empty—the item
is appended at the end of the new container's collection and the new
container is notified.  The bodies of `QwtPlot::attachItem` and
`QwtPlotItem::attach` are not part of the excerpt. -/
def attach (s : RegistryState) (i : ItemId) (c : Option PlotId) : RegistryState :=
  { items := fun j => if j = i then { s.items j with plot := c } else s.items j
    collections := fun q =>
      (if (s.items i).plot = some q then (s.collections q).erase i else s.collections q)
        ++ (if c = some q then [i] else [])
    log := s.log ++ (s.items i).plot.toList ++ c.toList }

/-- Modelled from the spec: `detach(item)` is `attach(item, none)`. -/
def detach (s : RegistryState) (i : ItemId) : RegistryState :=
  attach s i none

/-- Modelled from the spec: the `plot()` query, the item's container
back-reference. -/
def plotOf (s : RegistryState) (i : ItemId) : Option PlotId :=
  (s.items i).plot

/-- Modelled from the spec: update the state of one item, leaving the
collections and the notification log unchanged. -/
def updItem (s : RegistryState) (i : ItemId) (f : PlotItem → PlotItem) : RegistryState :=
  { s with items := fun j => if j = i then f (s.items j) else s.items j }

/-- Modelled from the spec: a change notification to the item's
container, if it has one (the redraw signal of `itemChanged()`). -/
def notifyItem (s : RegistryState) (i : ItemId) : RegistryState :=
  match (s.items i).plot with
  | some p => { s with log := s.log ++ [p] }
  | none => s

/-- Modelled from the spec: `setZ(item, value)` sets the ordering key
and nothing else; containers re-sort only on the next paint/hit-test. -/
def setZ (s : RegistryState) (i : ItemId) (v : ℚ) : RegistryState :=
  updItem s i fun it => { it with z := v }

/-- Modelled from the spec: the `z()` query. -/
def zOf (s : RegistryState) (i : ItemId) : ℚ :=
  (s.items i).z

/-- Modelled from the spec: `setVisible(item, b)` toggles the visibility
flag; when the flag changes, the container is notified (redraw). -/
def setVisible (s : RegistryState) (i : ItemId) (b : Bool) : RegistryState :=
  if (s.items i).visible = b then s
  else notifyItem (updItem s i fun it => { it with visible := b }) i

/-- Modelled from the spec: `show()` is `setVisible(true)`. -/
def showItem (s : RegistryState) (i : ItemId) : RegistryState :=
  setVisible s i true

/-- Modelled from the spec: `hide()` is `setVisible(false)`. -/
def hideItem (s : RegistryState) (i : ItemId) : RegistryState :=
  setVisible s i false

/-- Modelled from the spec: the `isVisible()` query. -/
def isVisible (s : RegistryState) (i : ItemId) : Bool :=
  (s.items i).visible

/-- Modelled from the spec: `setItemAttribute(flag, on)` sets or clears
one of {Legend, AutoScale} independently. -/
def setItemAttribute (s : RegistryState) (i : ItemId)
    (a : ItemAttribute) (b : Bool) : RegistryState :=
  updItem s i fun it =>
    match a with
    | .Legend => { it with legendAttr := b }
    | .AutoScale => { it with autoScaleAttr := b }

/-- Modelled from the spec: the `testItemAttribute(flag)` query. -/
def testItemAttribute (s : RegistryState) (i : ItemId) (a : ItemAttribute) : Bool :=
  match a with
  | .Legend => (s.items i).legendAttr
  | .AutoScale => (s.items i).autoScaleAttr

/-- Modelled from the spec: `setRenderHint(flag, on)` sets or clears one
of {Antialiased, RenderFloats}; purely advisory to the paint step. -/
def setRenderHint (s : RegistryState) (i : ItemId)
    (h : RenderHint) (b : Bool) : RegistryState :=
  updItem s i fun it =>
    match h with
    | .RenderAntialiased => { it with antialiased := b }
    | .RenderFloats => { it with renderFloats := b }

/-- Modelled from the spec: the `testRenderHint(flag)` query. -/
def testRenderHint (s : RegistryState) (i : ItemId) (h : RenderHint) : Bool :=
  match h with
  | .RenderAntialiased => (s.items i).antialiased
  | .RenderFloats => (s.items i).renderFloats

/-- Modelled from the spec: `setXAxis(axis)` stores the x-axis id with
no validation. -/
def setXAxis (s : RegistryState) (i : ItemId) (a : Int) : RegistryState :=
  updItem s i fun it => { it with xAxis := a }

/-- Modelled from the spec: `setYAxis(axis)` stores the y-axis id with
no validation. -/
def setYAxis (s : RegistryState) (i : ItemId) (a : Int) : RegistryState :=
  updItem s i fun it => { it with yAxis := a }

/-- Modelled from the spec: `setAxes(xAxis, yAxis)` stores the two
integer axis identifiers with no validation against the container's
axis set. -/
def setAxes (s : RegistryState) (i : ItemId) (x y : Int) : RegistryState :=
  setYAxis (setXAxis s i x) i y

/-- Modelled from the spec: the `xAxis()` query. -/
def xAxisOf (s : RegistryState) (i : ItemId) : Int :=
  (s.items i).xAxis

/-- Modelled from the spec: the `yAxis()` query. -/
def yAxisOf (s : RegistryState) (i : ItemId) : Int :=
  (s.items i).yAxis

/-- Modelled from the spec: the items of a container that take part in a
paint pass (hidden items are excluded from paint). -/
def paintIds (s : RegistryState) (p : PlotId) : List ItemId :=
  (s.collections p).filter fun i => (s.items i).visible

/-- Modelled from the spec: the items of a container that enter the
autoscale bounding-box aggregation: the visible ones whose `AutoScale`
attribute is set. -/
def autoscaleIds (s : RegistryState) (p : PlotId) : List ItemId :=
  (s.collections p).filter fun i => (s.items i).visible && (s.items i).autoScaleAttr

/-- Modelled from the spec: a container's explicit re-sort of its
collection by the items' z ordering keys, performed at paint or
hit-test time; the sort is stable, so z-order ties keep insertion
order. -/
def resortPlot (s : RegistryState) (p : PlotId) : RegistryState :=
  { s with collections := fun q =>
      if q = p then
        (s.collections q).insertionSort fun a b => (s.items a).z ≤ (s.items b).z
      else s.collections q }

/-- Modelled from the spec: registry well-formedness.  Every container's
collection is duplicate-free, and an item sits in a container's
collection exactly when its back-reference names that container. -/
def Inv (s : RegistryState) : Prop :=
  (∀ p, (s.collections p).Nodup) ∧
    (∀ i p, i ∈ s.collections p ↔ (s.items i).plot = some p)

/-- Modelled from the spec: the registry with no items attached; every
item is in the freshly constructed (detached) state. -/
def emptyState : RegistryState :=
  { items := fun _ => mkPlotItem ""
    collections := fun _ => []
    log := [] }

theorem inv_emptyState : Inv emptyState := by
  constructor
  · intro p
    simp [emptyState]
  · intro i p
    simp [emptyState, mkPlotItem]

theorem attach_items (s : RegistryState) (i : ItemId) (c : Option PlotId) (j : ItemId) :
    (attach s i c).items j = if j = i then { s.items j with plot := c } else s.items j := rfl

theorem attach_collections (s : RegistryState) (i : ItemId) (c : Option PlotId) (q : PlotId) :
    (attach s i c).collections q =
      (if (s.items i).plot = some q then (s.collections q).erase i else s.collections q)
        ++ (if c = some q then [i] else []) := rfl

theorem mem_attach_collections_of_ne (s : RegistryState) {i j : ItemId} (c : Option PlotId)
    (q : PlotId) (hij : j ≠ i) :
    j ∈ (attach s i c).collections q ↔ j ∈ s.collections q := by
  rw [attach_collections]
  simp only [List.mem_append]
  constructor
  · rintro (h | h)
    · by_cases hp : (s.items i).plot = some q
      · rw [if_pos hp] at h
        exact (List.mem_of_mem_erase h)
      · rwa [if_neg hp] at h
    · rcases c with _ | p
      · simp at h
      · by_cases hq : p = q
        · subst hq; simp at h; exact absurd h hij
        · simp [hq] at h
  · intro h
    left
    by_cases hp : (s.items i).plot = some q
    · rw [if_pos hp]
      exact (List.mem_erase_of_ne hij).mpr h
    · rwa [if_neg hp]

theorem not_mem_attach_base (s : RegistryState) (i : ItemId) (q : PlotId)
    (hinv : Inv s) :
    i ∉ (if (s.items i).plot = some q then (s.collections q).erase i
          else s.collections q) := by
  by_cases hp : (s.items i).plot = some q
  · rw [if_pos hp]
    exact (hinv.1 q).not_mem_erase
  · rw [if_neg hp]
    intro hmem
    exact hp ((hinv.2 i q).mp hmem)

theorem mem_attach_collections_self (s : RegistryState) (i : ItemId) (c : Option PlotId)
    (q : PlotId) (hinv : Inv s) :
    i ∈ (attach s i c).collections q ↔ c = some q := by
  rw [attach_collections]
  simp only [List.mem_append]
  constructor
  · rintro (h | h)
    · exact absurd h (not_mem_attach_base s i q hinv)
    · rcases c with _ | p
      · simp at h
      · by_cases hq : p = q
        · simp [hq]
        · simp [hq] at h
  · intro h
    right
    simp [h]

theorem attach_preserves_inv (s : RegistryState) (i : ItemId) (c : Option PlotId)
    (hinv : Inv s) : Inv (attach s i c) := by
  constructor
  · intro q
    rw [attach_collections]
    have hbase : (if (s.items i).plot = some q then (s.collections q).erase i
        else s.collections q).Nodup := by
      by_cases hp : (s.items i).plot = some q
      · rw [if_pos hp]; exact (hinv.1 q).erase i
      · rw [if_neg hp]; exact hinv.1 q
    rcases c with _ | p
    · simpa using hbase
    · by_cases hq : p = q
      · subst hq
        simp only [if_pos rfl]
        rw [List.nodup_append]
        refine ⟨hbase, List.nodup_singleton i, ?_⟩
        intro a ha hb
        simp at hb
        exact not_mem_attach_base _ _ _ hinv (hb ▸ ha)
      · have : (some p = some q) = False := by simp [hq]
        simp only [this, if_false]
        simpa using hbase
  · intro j q
    by_cases hj : j = i
    · subst hj
      rw [mem_attach_collections_self s j c q hinv, attach_items]
      simp
    · rw [mem_attach_collections_of_ne s c q hj, attach_items, if_neg hj]
      exact hinv.2 j q

theorem attach_count_self (s : RegistryState) (i : ItemId) (p : PlotId)
    (hinv : Inv s) : ((attach s i (some p)).collections p).count i = 1 := by
  rw [attach_collections]
  simp only [if_pos rfl]
  rw [List.count_append]
  rw [List.count_eq_zero.mpr (not_mem_attach_base s i p hinv)]
  simp

theorem attach_collections_getLast (s : RegistryState) (i : ItemId) (p : PlotId) :
    ((attach s i (some p)).collections p).getLast? = some i := by
  rw [attach_collections]
  simp only [if_pos rfl]
  exact List.getLast?_concat _

theorem attach_log_getLast (s : RegistryState) (i : ItemId) (p : PlotId) :
    ((attach s i (some p)).log).getLast? = some p :=
  List.getLast?_concat _

/-- A registry holding a single item `0` attached to container `0`,
reached from the empty registry by one `attach`. -/
def w1 : RegistryState :=
  attach emptyState 0 (some 0)

theorem inv_w1 : Inv w1 :=
  attach_preserves_inv _ _ _ inv_emptyState

/-- C1: an item is attached to at most one plot container at a time;
attaching an item currently attached to `c1` to a different container
`c2` removes it from `c1`'s collection and adds it to `c2`'s, and every
attach preserves the single-membership invariant. -/
theorem claim_C1_single_membership (s : RegistryState) (i : ItemId) (c1 c2 : PlotId)
    (hinv : Inv s) (_h1 : plotOf s i = some c1) (hne : c1 ≠ c2) :
    (∀ (j : ItemId) (c : Option PlotId), Inv (attach s j c)) ∧
    (∀ (j : ItemId) (c : Option PlotId) (x : ItemId) (p q : PlotId),
        x ∈ (attach s j c).collections p → x ∈ (attach s j c).collections q → p = q) ∧
    i ∉ (attach s i (some c2)).collections c1 ∧
    i ∈ (attach s i (some c2)).collections c2 := by
  refine ⟨fun j c => attach_preserves_inv s j c hinv, ?_, ?_, ?_⟩
  · intro j c x p q hp hq
    have h := (attach_preserves_inv s j c hinv).2
    have hp' := (h x p).mp hp
    have hq' := (h x q).mp hq
    rw [hp'] at hq'
    exact Option.some.inj hq'
  · rw [mem_attach_collections_self s i (some c2) c1 hinv]
    intro h
    exact hne (Option.some.inj h).symm
  · rw [mem_attach_collections_self s i (some c2) c2 hinv]

/-- C1 witness: the theorem applied to the one-item registry `w1`, whose
item `0` is attached to container `0`, re-attached to container `1`. -/
theorem claim_C1_single_membership_witness :
    Inv w1 ∧ plotOf w1 0 = some 0 ∧ (0 : PlotId) ≠ 1 ∧
      (0 ∉ (attach w1 0 (some 1)).collections 0 ∧
        0 ∈ (attach w1 0 (some 1)).collections 1) :=
  ⟨inv_w1, by decide, by decide,
    (claim_C1_single_membership w1 0 0 1 inv_w1 (by decide) (by decide)).2.2⟩

/-- C2: after `attach(i, some p)` the item's back-reference points to
`p`, the item appears exactly once in `p`'s collection, appended at the
end, and the container `p` receives the latest notification. -/
theorem claim_C2_attach_postcondition (s : RegistryState) (i : ItemId) (p : PlotId)
    (hinv : Inv s) :
    plotOf (attach s i (some p)) i = some p ∧
    ((attach s i (some p)).collections p).count i = 1 ∧
    ((attach s i (some p)).collections p).getLast? = some i ∧
    ((attach s i (some p)).log).getLast? = some p := by
  refine ⟨?_, attach_count_self s i p hinv, attach_collections_getLast s i p,
    attach_log_getLast s i p⟩
  rw [plotOf, attach_items, if_pos rfl]

/-- C2 witness: the theorem applied to the empty registry, attaching
item `0` to container `0`. -/
theorem claim_C2_attach_postcondition_witness :
    Inv emptyState ∧
      (plotOf (attach emptyState 0 (some 0)) 0 = some 0 ∧
        ((attach emptyState 0 (some 0)).collections 0).count 0 = 1 ∧
        ((attach emptyState 0 (some 0)).collections 0).getLast? = some 0 ∧
        ((attach emptyState 0 (some 0)).log).getLast? = some 0) :=
  ⟨inv_emptyState, claim_C2_attach_postcondition emptyState 0 0 inv_emptyState⟩

/-- C3: `detach(i)` is `attach(i, none)`; afterwards the item's
container query yields none and the item is in no container's
collection. -/
theorem claim_C3_detach_equiv (s : RegistryState) (i : ItemId) (hinv : Inv s) :
    detach s i = attach s i none ∧
    plotOf (detach s i) i = none ∧
    ∀ p, i ∉ (detach s i).collections p := by
  refine ⟨rfl, ?_, ?_⟩
  · rw [detach, plotOf, attach_items, if_pos rfl]
  · intro p
    rw [detach, mem_attach_collections_self s i none p hinv]
    simp

/-- C3 witness: the theorem applied to the one-item registry `w1`, whose
item `0` is attached to container `0`. -/
theorem claim_C3_detach_equiv_witness :
    Inv w1 ∧
      (detach w1 0 = attach w1 0 none ∧
        plotOf (detach w1 0) 0 = none ∧
        ∀ p, 0 ∉ (detach w1 0).collections p) :=
  ⟨inv_w1, claim_C3_detach_equiv w1 0 inv_w1⟩

theorem updItem_items_self (s : RegistryState) (i : ItemId) (f : PlotItem → PlotItem) :
    (updItem s i f).items i = f (s.items i) := by
  simp [updItem]

theorem updItem_collections (s : RegistryState) (i : ItemId) (f : PlotItem → PlotItem) :
    (updItem s i f).collections = s.collections := rfl

theorem notifyItem_items (s : RegistryState) (i : ItemId) :
    (notifyItem s i).items = s.items := by
  rcases h : (s.items i).plot with _ | p <;> simp [notifyItem, h]

theorem notifyItem_collections (s : RegistryState) (i : ItemId) :
    (notifyItem s i).collections = s.collections := by
  rcases h : (s.items i).plot with _ | p <;> simp [notifyItem, h]

theorem PlotItem.withVisible_self (it : PlotItem) (b : Bool) (h : it.visible = b) :
    ({ it with visible := b } : PlotItem) = it := by
  cases it
  simp only at h
  simp [h]

theorem setVisible_items_self (s : RegistryState) (i : ItemId) (b : Bool) :
    (setVisible s i b).items i = { s.items i with visible := b } := by
  by_cases h : (s.items i).visible = b
  · rw [setVisible, if_pos h, PlotItem.withVisible_self _ _ h]
  · rw [setVisible, if_neg h, notifyItem_items, updItem_items_self]

theorem setVisible_items_ne (s : RegistryState) {i j : ItemId} (b : Bool) (h : j ≠ i) :
    (setVisible s i b).items j = s.items j := by
  by_cases hv : (s.items i).visible = b
  · rw [setVisible, if_pos hv]
  · rw [setVisible, if_neg hv, notifyItem_items]
    simp [updItem, h]

theorem setVisible_collections (s : RegistryState) (i : ItemId) (b : Bool) :
    (setVisible s i b).collections = s.collections := by
  by_cases hv : (s.items i).visible = b
  · rw [setVisible, if_pos hv]
  · rw [setVisible, if_neg hv, notifyItem_collections, updItem_collections]

theorem setVisible_visible (s : RegistryState) (i : ItemId) (b : Bool) :
    ((setVisible s i b).items i).visible = b := by
  rw [setVisible_items_self]

theorem setVisible_autoScaleAttr (s : RegistryState) (i : ItemId) (b : Bool) :
    ((setVisible s i b).items i).autoScaleAttr = (s.items i).autoScaleAttr := by
  rw [setVisible_items_self]

/-- The registry `w1` with the `AutoScale` attribute of item `0` set. -/
def w2 : RegistryState :=
  setItemAttribute w1 0 .AutoScale true

/-- C4: while an item is hidden it is excluded from paint and from the
autoscale bounding-box aggregation even if its `AutoScale` attribute is
set, yet it remains in its container's collection; `setVisible(true)`
restores its inclusion in the aggregation. -/
theorem claim_C4_hidden_excluded (s : RegistryState) (i : ItemId) (p : PlotId)
    (hA : (s.items i).autoScaleAttr = true) (hm : i ∈ s.collections p) :
    i ∉ autoscaleIds (setVisible s i false) p ∧
    i ∉ paintIds (setVisible s i false) p ∧
    (setVisible s i false).collections p = s.collections p ∧
    i ∈ (setVisible s i false).collections p ∧
    i ∈ autoscaleIds (setVisible (setVisible s i false) i true) p := by
  refine ⟨?_, ?_, ?_, ?_, ?_⟩
  · intro hmem
    have h := (List.mem_filter.mp hmem).2
    rw [setVisible_visible] at h
    simp at h
  · intro hmem
    have h := (List.mem_filter.mp hmem).2
    rw [setVisible_visible] at h
    simp at h
  · rw [setVisible_collections]
  · rw [setVisible_collections]; exact hm
  · refine List.mem_filter.mpr ⟨?_, ?_⟩
    · rw [setVisible_collections, setVisible_collections]; exact hm
    · rw [setVisible_visible, setVisible_autoScaleAttr, setVisible_items_self]
      simp [hA]

/-- C4 witness: the theorem applied to the registry `w2`, whose item `0`
is attached to container `0` and has the `AutoScale` attribute set. -/
theorem claim_C4_hidden_excluded_witness :
    (w2.items 0).autoScaleAttr = true ∧ 0 ∈ w2.collections 0 ∧
      (0 ∉ autoscaleIds (setVisible w2 0 false) 0 ∧
        0 ∉ paintIds (setVisible w2 0 false) 0 ∧
        (setVisible w2 0 false).collections 0 = w2.collections 0 ∧
        0 ∈ (setVisible w2 0 false).collections 0 ∧
        0 ∈ autoscaleIds (setVisible (setVisible w2 0 false) 0 true) 0) :=
  ⟨by decide, by decide, claim_C4_hidden_excluded w2 0 0 (by decide) (by decide)⟩

/-- C5: `setItemAttribute(Legend, b)` leaves `AutoScale` unchanged and
`setItemAttribute(AutoScale, b)` leaves `Legend` unchanged; the two
flags are independently settable and queryable in all four
combinations, with no ordering dependency between the two updates. -/
theorem claim_C5_attribute_independence (s : RegistryState) (i : ItemId) (b b1 b2 : Bool) :
    testItemAttribute (setItemAttribute s i .Legend b) i .AutoScale
        = testItemAttribute s i .AutoScale ∧
    testItemAttribute (setItemAttribute s i .AutoScale b) i .Legend
        = testItemAttribute s i .Legend ∧
    testItemAttribute (setItemAttribute (setItemAttribute s i .Legend b1) i .AutoScale b2)
        i .Legend = b1 ∧
    testItemAttribute (setItemAttribute (setItemAttribute s i .Legend b1) i .AutoScale b2)
        i .AutoScale = b2 ∧
    setItemAttribute (setItemAttribute s i .Legend b1) i .AutoScale b2
      = setItemAttribute (setItemAttribute s i .AutoScale b2) i .Legend b1 := by
  refine ⟨?_, ?_, ?_, ?_, ?_⟩
  · simp [testItemAttribute, setItemAttribute, updItem]
  · simp [testItemAttribute, setItemAttribute, updItem]
  · simp [testItemAttribute, setItemAttribute, updItem]
  · simp [testItemAttribute, setItemAttribute, updItem]
  · simp only [setItemAttribute, updItem]
    congr 1
    funext j
    by_cases h : j = i <;> simp [h]

/-- C6: `setZ` sets the ordering key and changes nothing else — the
item's other fields, all other items, every container's collection
order and the notification log are untouched; only the container's
explicit re-sort (at paint or hit-test) reorders the collection, and
after it the collection is a z-sorted permutation of itself. -/
theorem claim_C6_setZ_lazy_order (s : RegistryState) (i : ItemId) (v : ℚ) (p : PlotId) :
    zOf (setZ s i v) i = v ∧
    (setZ s i v).collections = s.collections ∧
    (setZ s i v).log = s.log ∧
    (setZ s i v).items
      = (fun j => if j = i then { s.items j with z := v } else s.items j) ∧
    List.Sorted (fun a b => ((setZ s i v).items a).z ≤ ((setZ s i v).items b).z)
      ((resortPlot (setZ s i v) p).collections p) ∧
    ((resortPlot (setZ s i v) p).collections p).Perm ((setZ s i v).collections p) := by
  refine ⟨?_, rfl, rfl, rfl, ?_, ?_⟩
  · rw [zOf, setZ, updItem_items_self]
  · haveI : IsTotal ItemId
        (fun a b => ((setZ s i v).items a).z ≤ ((setZ s i v).items b).z) :=
      ⟨fun a b => le_total _ _⟩
    haveI : IsTrans ItemId
        (fun a b => ((setZ s i v).items a).z ≤ ((setZ s i v).items b).z) :=
      ⟨fun a b c hab hbc => le_trans hab hbc⟩
    rw [resortPlot]
    simp only [if_pos rfl]
    exact List.sorted_insertionSort _ _
  · rw [resortPlot]
    simp only [if_pos rfl]
    exact List.perm_insertionSort _ _

/-- C7: every registry operation is a total function over in-memory
state; in particular `setAxes`, `setXAxis` and `setYAxis` store the
given integer axis identifiers for arbitrary arguments — including ids
that no container's axis set could contain — with no validation and no
error path at this layer. -/
theorem claim_C7_total_operations (s : RegistryState) (i : ItemId) (x y a : Int) :
    xAxisOf (setAxes s i x y) i = x ∧
    yAxisOf (setAxes s i x y) i = y ∧
    xAxisOf (setXAxis s i a) i = a ∧
    yAxisOf (setYAxis s i a) i = a ∧
    (setAxes s i x y).collections = s.collections ∧
    (setAxes s i x y).log = s.log := by
  refine ⟨?_, ?_, ?_, ?_, rfl, rfl⟩ <;>
    simp [xAxisOf, yAxisOf, setAxes, setXAxis, setYAxis, updItem]

/-- Modelled from the spec: the registry effect of the destructor
`~QwtPlotItem` — destruction implicitly detaches (the destructor body in
`qwt_plot_item.cpp` is not part of the excerpt). -/
def destroyItem (s : RegistryState) (i : ItemId) : RegistryState :=
  detach s i

/-- C8: every item is created detached (its container back-reference is
none after construction), and destroying an item implicitly detaches
it, so afterwards no container's collection still contains it. -/
theorem claim_C8_lifecycle (s : RegistryState) (i : ItemId) (t : String) (hinv : Inv s) :
    (mkPlotItem t).plot = none ∧
    plotOf (destroyItem s i) i = none ∧
    ∀ p, i ∉ (destroyItem s i).collections p := by
  refine ⟨rfl, ?_, ?_⟩
  · rw [destroyItem, detach, plotOf, attach_items, if_pos rfl]
  · intro p
    rw [destroyItem, detach, mem_attach_collections_self s i none p hinv]
    simp

/-- C8 witness: the theorem applied to the one-item registry `w1`,
destroying its attached item `0`. -/
theorem claim_C8_lifecycle_witness :
    Inv w1 ∧
      ((mkPlotItem "title").plot = none ∧
        plotOf (destroyItem w1 0) 0 = none ∧
        ∀ p, 0 ∉ (destroyItem w1 0).collections p) :=
  ⟨inv_w1, claim_C8_lifecycle w1 0 "title" inv_w1⟩

/-- A GUI action of the example `main` program of the excerpt. -/
inductive GuiAction where
  | constructPlot
  | setMainWidget
  | resize (w h : Nat)
  | showWidget
deriving DecidableEq, Repr

/-- The sequence of GUI actions performed by the example `main` program
before entering the event loop, embedded from the source text: it
constructs a `QwtPolarPlot`, if `QT_VERSION < 0x040000` registers it as
the application's main widget, resizes it to 600x400 and shows it. -/
def mainActions (qtVersion : Nat) : List GuiAction :=
  [GuiAction.constructPlot]
    ++ (if qtVersion < 0x040000 then [GuiAction.setMainWidget] else [])
    ++ [GuiAction.resize 600 400, GuiAction.showWidget]

/-- The example `main` program: it performs the GUI actions and then
enters the framework's blocking event loop `a.exec()`, whose exit code
(the framework is external, so it is a parameter) becomes the program's
return value. -/
def mainProgram (qtVersion : Nat) (execResult : Int) : List GuiAction × Int :=
  (mainActions qtVersion, execResult)

/-- C9: for any Qt version from 4 on, the example `main` program only
constructs the plot widget, resizes it to 600x400 and shows it, then
enters the blocking event loop and returns the event loop's exit code
as its own exit code. -/
theorem claim_C9_main_program (qtVersion : Nat) (code : Int)
    (hv : 0x040000 ≤ qtVersion) :
    (mainProgram qtVersion code).1
        = [GuiAction.constructPlot, GuiAction.resize 600 400, GuiAction.showWidget] ∧
    (mainProgram qtVersion code).2 = code := by
  constructor
  · simp [mainProgram, mainActions, Nat.not_lt.mpr hv]
  · rfl

/-- C9 witness: the theorem applied at Qt version 5.0.0 and exit
code 7. -/
theorem claim_C9_main_program_witness :
    0x040000 ≤ 0x050000 ∧
      ((mainProgram 0x050000 7).1
          = [GuiAction.constructPlot, GuiAction.resize 600 400, GuiAction.showWidget] ∧
        (mainProgram 0x050000 7).2 = 7) :=
  ⟨by decide, claim_C9_main_program 0x050000 7 (by decide)⟩

/-- Runtime type identifier `Rtti_PlotItem = 0` of the `RttiValues`
enum of `qwt_plot_item.h`. -/
def Rtti_PlotItem : Nat := 0

/-- Runtime type identifier for `QwtPlotGrid` (next enumerator). -/
def Rtti_PlotGrid : Nat := 1

/-- Runtime type identifier for `QwtPlotScaleItem`. -/
def Rtti_PlotScale : Nat := 2

/-- Runtime type identifier for `QwtPlotMarker`. -/
def Rtti_PlotMarker : Nat := 3

/-- Runtime type identifier for `QwtPlotCurve`. -/
def Rtti_PlotCurve : Nat := 4

/-- Runtime type identifier for `QwtPlotSpectroCurve`. -/
def Rtti_PlotSpectroCurve : Nat := 5

/-- Runtime type identifier for `QwtPlotIntervalCurve`. -/
def Rtti_PlotIntervalCurve : Nat := 6

/-- Runtime type identifier for `QwtPlotHistogram`. -/
def Rtti_PlotHistogram : Nat := 7

/-- Runtime type identifier for `QwtPlotSpectrogram`. -/
def Rtti_PlotSpectrogram : Nat := 8

/-- Runtime type identifier for `QwtPlotSvgItem`. -/
def Rtti_PlotSVG : Nat := 9

/-- Runtime type identifier for `QwtPlotTradingCurve`. -/
def Rtti_PlotTradingCurve : Nat := 10

/-- Runtime type identifier for `QwtPlotBarChart`. -/
def Rtti_PlotBarChart : Nat := 11

/-- Threshold `Rtti_PlotUserItem = 1000`: values from here on are
reserved for plot items not implemented in the Qwt library. -/
def Rtti_PlotUserItem : Nat := 1000

/-- The library-defined runtime type identifiers, in declaration
order. -/
def rttiLibraryValues : List Nat :=
  [Rtti_PlotItem, Rtti_PlotGrid, Rtti_PlotScale, Rtti_PlotMarker,
    Rtti_PlotCurve, Rtti_PlotSpectroCurve, Rtti_PlotIntervalCurve,
    Rtti_PlotHistogram, Rtti_PlotSpectrogram, Rtti_PlotSVG,
    Rtti_PlotTradingCurve, Rtti_PlotBarChart]

/-- C10: every library-defined runtime-type identifier of the
`RttiValues` enumeration is strictly below the user-item threshold
`Rtti_PlotUserItem = 1000`, and the library identifiers are pairwise
distinct. -/
theorem claim_C10_rtti_values :
    rttiLibraryValues.Nodup
      ∧ rttiLibraryValues.all (fun v => decide (v < Rtti_PlotUserItem)) = true := by
  decide

end QwtSpec
